import Mathlib

/-!
Shallow embedding of the SWR (stale-while-revalidate) cache coordinator of
the async-plugin-request repository (src/swr.ts).  The source file contains
two near-duplicate design iterations of the plugin; we embed both and refer
to them as variant 1 (the first block of the file, createSWRPlugin with no
plugin options) and variant 2 (the second block, createSWRPlugin taking
SWRPluginOptions).

Modelling conventions:
- JavaScript object identity of shells and options objects is modelled by
  numeric identifiers (ShellId, OptsId); an environment function maps an
  options identifier to the option record it denotes.
- Promises are modelled by numeric identifiers; invoking the raw task
  produces a caller-supplied fresh identifier.  The task wrapper reports
  which of the three source paths it took via TaskOutcome.
- Date.now() is modelled by an explicit time parameter (a natural number).
- The EXPIRED_FLAG sentinel union (number or Symbol) is modelled by
  Option Nat on lastUpdateTime, none standing for the sentinel.
- JavaScript truthiness of keys is modelled faithfully: a missing key
  specification and an empty-string static key are both falsy at the
  option check, and an empty-string resolved key is falsy at use sites.
-/

namespace SWRSpec

abbrev ShellId := Nat
abbrev OptsId := Nat
abbrev Val := Nat
abbrev Payload := List Nat

/-- Models the MaybeFn type of the source options: either a literal value or
a function of the call arguments. -/
inductive MaybeFn (α : Type) where
  | value (a : α)
  | fn (f : Payload → α)

/-- Models toValue from nice-fns: apply the function to the call arguments,
or return the literal. -/
def toValue {α : Type} : MaybeFn α → Payload → α
  | MaybeFn.value a, _ => a
  | MaybeFn.fn f, p => f p

/-- Reactive shell state of one subscriber: the fields of UseAsyncReturn the
SWR plugin reads or writes (isFinished, isExecuting, payload, rawData, data). -/
structure ShellState where
  isFinished : Bool
  isExecuting : Bool
  payload : Payload
  rawData : Val
  data : Val
deriving DecidableEq, Repr

/-- Models the CacheModel record: lastUpdateTime (none is the EXPIRED_FLAG
sentinel), the shared promise (by identifier), and the registered contexts
as (shell identity, options identity) pairs. -/
structure CacheModel where
  lastUpdateTime : Option Nat
  promise : Option Nat
  contexts : List (ShellId × OptsId)
deriving DecidableEq, Repr

/-- Per-subscriber SWR options of variant 1: key and cacheTime may each be a
literal or a function of the payload; absence models an absent options.swr
field. -/
structure SWROptV1 where
  key : Option (MaybeFn String)
  cacheTime : Option (MaybeFn Int)

/-- Per-subscriber SWR options of variant 2: cacheTime is a plain number
defaulting to the plugin-level base value. -/
structure SWROptV2 where
  key : Option (MaybeFn String)
  cacheTime : Option Int

/-- JavaScript truthiness of the key specification as tested by the source
guards: absent is falsy, a literal empty string is falsy, a function is
truthy. -/
def specTruthy : Option (MaybeFn String) → Bool
  | none => false
  | some (MaybeFn.value s) => !(s == "")
  | some (MaybeFn.fn _) => true

/-- Variant 1 getKey: returns null when the shell has no execution record
(neither finished nor executing) or when no truthy key specification is
configured; otherwise resolves the specification against the payload. -/
def getKeyV1 (options : SWROptV1) (payload : Payload) (shell : ShellState) : Option String :=
  if (!shell.isFinished && !shell.isExecuting) || !specTruthy options.key then
    none
  else
    options.key.map (fun k => toValue k payload)

/-- Variant 2 getKey: resolves the key specification against the payload
whenever a truthy specification is configured, with no execution-record
guard. -/
def getKeyV2 (options : SWROptV2) (payload : Payload) : Option String :=
  if specTruthy options.key then
    options.key.map (fun k => toValue k payload)
  else
    none

/-- Variant 1 per-call cache time: toValue of the configured cacheTime,
defaulting to 0 as in the source destructuring. -/
def resolveCacheTimeV1 (opts : SWROptV1) (payload : Payload) : Int :=
  toValue (opts.cacheTime.getD (MaybeFn.value 0)) payload

/-- Variant 2 per-subscriber cache time: the configured number, defaulting
to the plugin-level base value. -/
def resolveCacheTimeV2 (opts : SWROptV2) (base : Int) : Int :=
  opts.cacheTime.getD base

/-- Models initCache: a fresh entry carrying the EXPIRED sentinel, no
promise and no contexts. -/
def initCache : CacheModel :=
  { lastUpdateTime := none, promise := none, contexts := [] }

/-- Models expireCache on a present entry: reset lastUpdateTime to the
EXPIRED sentinel and clear the promise, keeping the contexts. -/
def expireCache (cache : CacheModel) : CacheModel :=
  { cache with lastUpdateTime := none, promise := none }

/-- Variant 2 isValid: the cache time is positive, the entry exists, its
lastUpdateTime is not the EXPIRED sentinel, and now minus lastUpdateTime is
strictly below the cache time. -/
def isValid (cache : Option CacheModel) (cacheTime : Int) (now : Nat) : Bool :=
  cacheTime > 0 &&
    (match cache with
     | none => false
     | some c =>
       match c.lastUpdateTime with
       | none => false
       | some t => decide ((now : Int) - (t : Int) < cacheTime))

/-- The key-to-entry map of the plugin; a JavaScript Map has unique keys,
so a function to an optional entry is a faithful representation. -/
abbrev CacheMap := String → Option CacheModel

/-- Models Map.set. -/
def mapSet (m : CacheMap) (k : String) (c : CacheModel) : CacheMap :=
  fun k2 => if k2 = k then some c else m k2

/-- Models expireCache applied to the result of Map.get: the entry at the
key, if present, is expired in place; an absent key stays absent. -/
def expireAt (m : CacheMap) (k : String) : CacheMap :=
  fun k2 => if k2 = k then (m k2).map expireCache else m k2

/-- The mutable world the plugin touches: all shells (by identity) and the
shared cache map. -/
structure SWRState where
  shells : ShellId → ShellState
  cacheMap : CacheMap

/-- Models filterContexts (called otherContexts in variant 2, with the same
body): keep a context only when its shell differs from the calling
subscriber's shell, its options object differs from the calling subscriber's
options object, and the extra predicate holds. -/
def filterContexts (selfShell : ShellId) (selfOpts : OptsId)
    (pred : ShellId × OptsId → Bool) (ctxs : List (ShellId × OptsId)) :
    List (ShellId × OptsId) :=
  ctxs.filter (fun c => c.1 != selfShell && c.2 != selfOpts && pred c)

/-- Write the broadcast values into a shell's reactive result slots. -/
def updateShellData (rawData dataVal : Val) (s : ShellState) : ShellState :=
  { s with rawData := rawData, data := dataVal }

/-- Point update of the shell family at one shell identity. -/
def shellSet (i : ShellId) (v : ShellState) (sh : ShellId → ShellState) :
    ShellId → ShellState :=
  fun j => if j = i then v else sh j

/-- The forEach of the success hook: walk the filtered contexts and, for each
one whose re-resolved key matches (the condition is abstracted as cond so
that both variants share the definition), write the broadcast values into
that shell. -/
def bcastFold (cond : (ShellId → ShellState) → ShellId × OptsId → Bool)
    (rawData dataVal : Val) (targets : List (ShellId × OptsId))
    (sh : ShellId → ShellState) : ShellId → ShellState :=
  targets.foldl
    (fun sh c =>
      if cond sh c then shellSet c.1 (updateShellData rawData dataVal (sh c.1)) sh else sh)
    sh

/-- What the wrapped task did, as observable from the outside: passthrough
(raw task called with no caching behaviour), shared (an existing pending
promise was returned, the raw task was not invoked), or invoked (the raw
task was invoked and its promise stored on the entry). -/
inductive TaskOutcome where
  | passthrough (p : Nat)
  | shared (p : Nat)
  | invoked (p : Nat)
deriving DecidableEq, Repr

/-- Variant 1 task wrapper (pluginCtx.task of the first block): resolve the
key and the per-call cache time; pass through when the key is falsy or the
cache time is not positive; otherwise look up or create the entry, expire it
when its age strictly exceeds the cache time, register self in the contexts,
then return the existing promise if set, else invoke the raw task (the fresh
promise identifier) and store its promise. -/
def taskV1 (env : OptsId → SWROptV1) (selfShell : ShellId) (selfOpts : OptsId)
    (payload : Payload) (now fresh : Nat) (st : SWRState) : SWRState × TaskOutcome :=
  let opts := env selfOpts
  let key := getKeyV1 opts payload (st.shells selfShell)
  let ctv := resolveCacheTimeV1 opts payload
  match key with
  | none => (st, TaskOutcome.passthrough fresh)
  | some k =>
    if k = "" ∨ ctv ≤ 0 then (st, TaskOutcome.passthrough fresh)
    else
      let cache := (st.cacheMap k).getD initCache
      let cache :=
        match cache.lastUpdateTime with
        | some t => if (now : Int) - (t : Int) > ctv then expireCache cache else cache
        | none => cache
      let cache :=
        { cache with
          contexts :=
            filterContexts selfShell selfOpts (fun _ => true) cache.contexts
              ++ [(selfShell, selfOpts)] }
      match cache.promise with
      | some p => ({ st with cacheMap := mapSet st.cacheMap k cache }, TaskOutcome.shared p)
      | none =>
        let cache := { cache with promise := some fresh }
        ({ st with cacheMap := mapSet st.cacheMap k cache }, TaskOutcome.invoked fresh)

/-- Variant 2 task wrapper (pluginCtx.task of the second block): pass through
only when the key is falsy; look up or create the entry, expiring a found
entry that is not valid; register self; return the existing promise only
when lastUpdateTime is not the EXPIRED sentinel and a promise is set, else
invoke the raw task and store its promise. -/
def taskV2 (env : OptsId → SWROptV2) (base : Int) (selfShell : ShellId) (selfOpts : OptsId)
    (payload : Payload) (now fresh : Nat) (st : SWRState) : SWRState × TaskOutcome :=
  let opts := env selfOpts
  let cacheTime := resolveCacheTimeV2 opts base
  let key := getKeyV2 opts payload
  match key with
  | none => (st, TaskOutcome.passthrough fresh)
  | some k =>
    if k = "" then (st, TaskOutcome.passthrough fresh)
    else
      let cache :=
        match st.cacheMap k with
        | none => initCache
        | some c => if isValid (some c) cacheTime now then c else expireCache c
      let cache :=
        { cache with
          contexts :=
            filterContexts selfShell selfOpts (fun _ => true) cache.contexts
              ++ [(selfShell, selfOpts)] }
      match cache.lastUpdateTime, cache.promise with
      | some _, some p =>
        ({ st with cacheMap := mapSet st.cacheMap k cache }, TaskOutcome.shared p)
      | _, _ =>
        let cache := { cache with promise := some fresh }
        ({ st with cacheMap := mapSet st.cacheMap k cache }, TaskOutcome.invoked fresh)

/-- Variant 1 success hook: resolve the key from the success payload; when it
is truthy, the entry exists and still carries the EXPIRED sentinel, stamp
lastUpdateTime with now and broadcast to the other contexts that are
finished and not executing and whose key, re-resolved from their own options
and current payload, equals the populated key. -/
def successHookV1 (env : OptsId → SWROptV1) (selfShell : ShellId) (selfOpts : OptsId)
    (payload : Payload) (rawData dataVal : Val) (now : Nat) (st : SWRState) : SWRState :=
  match getKeyV1 (env selfOpts) payload (st.shells selfShell) with
  | none => st
  | some k =>
    if k = "" then st
    else
      match st.cacheMap k with
      | none => st
      | some cache =>
        match cache.lastUpdateTime with
        | some _ => st
        | none =>
          let targets := filterContexts selfShell selfOpts
            (fun c => (st.shells c.1).isFinished && !(st.shells c.1).isExecuting)
            cache.contexts
          let shells2 := bcastFold
            (fun sh c => getKeyV1 (env c.2) (sh c.1).payload (sh c.1) == some k)
            rawData dataVal targets st.shells
          { shells := shells2,
            cacheMap := mapSet st.cacheMap k { cache with lastUpdateTime := some now } }

/-- Variant 2 success hook: as variant 1, except the key resolver has no
execution-record guard and the broadcast filter only requires the other
subscriber not to be executing. -/
def successHookV2 (env : OptsId → SWROptV2) (selfShell : ShellId) (selfOpts : OptsId)
    (payload : Payload) (rawData dataVal : Val) (now : Nat) (st : SWRState) : SWRState :=
  match getKeyV2 (env selfOpts) payload with
  | none => st
  | some k =>
    if k = "" then st
    else
      match st.cacheMap k with
      | none => st
      | some cache =>
        match cache.lastUpdateTime with
        | some _ => st
        | none =>
          let targets := filterContexts selfShell selfOpts
            (fun c => !(st.shells c.1).isExecuting) cache.contexts
          let shells2 := bcastFold
            (fun sh c => getKeyV2 (env c.2) (sh c.1).payload == some k)
            rawData dataVal targets st.shells
          { shells := shells2,
            cacheMap := mapSet st.cacheMap k { cache with lastUpdateTime := some now } }

/-- Variant 1 shell.markExpired: take the explicit arguments when nonempty,
otherwise the shell's last payload; resolve the key; when it is truthy,
expire the entry found at that key (a missing entry is left missing, the
rest of the store and every shell untouched). -/
def markExpiredV1 (opts : SWROptV1) (selfShell : ShellId) (args : List Nat)
    (st : SWRState) : SWRState :=
  let payload := if args.length > 0 then args else (st.shells selfShell).payload
  match getKeyV1 opts payload (st.shells selfShell) with
  | none => st
  | some k =>
    if k = "" then st
    else { st with cacheMap := expireAt st.cacheMap k }

/-- The tryOnScopeDispose callback (identical code in both variants): drop
from every entry the contexts whose shell or options object coincides with
the disposing subscriber's, then delete every entry whose context list
became empty. -/
def scopeDispose (selfShell : ShellId) (selfOpts : OptsId) (st : SWRState) : SWRState :=
  { st with
    cacheMap := fun k =>
      match st.cacheMap k with
      | none => none
      | some cache =>
        let kept := filterContexts selfShell selfOpts (fun _ => true) cache.contexts
        if kept.isEmpty then none else some { cache with contexts := kept } }

/-- The catch handler both task wrappers attach to a freshly stored promise:
when the promise rejects, expire the entry (this models the handler firing
while the entry it captured is still the one stored at the key). -/
def promiseRejected (k : String) (st : SWRState) : SWRState :=
  { st with cacheMap := expireAt st.cacheMap k }

/-- Which shells variant 1 broadcast reaches, stated in observable terms: a
shell is set when some registered context holds it, both its shell and its
options object differ from the firing subscriber's, it is not executing, and
its key, re-resolved from its own options and current payload, equals the
populated key.  (The isFinished conjunct of the source filter is implied by
key re-resolution for a shell that is not executing.) -/
def broadcastTargetV1 (env : OptsId → SWROptV1) (selfShell : ShellId) (selfOpts : OptsId)
    (k : String) (sh : ShellId → ShellState) (ctxs : List (ShellId × OptsId))
    (s : ShellId) : Bool :=
  ctxs.any (fun c => c.1 == s && c.1 != selfShell && c.2 != selfOpts
    && !(sh c.1).isExecuting
    && (getKeyV1 (env c.2) (sh c.1).payload (sh c.1) == some k))

/-- Which shells variant 2 broadcast reaches: as variant 1, with the
guard-free key resolver. -/
def broadcastTargetV2 (env : OptsId → SWROptV2) (selfShell : ShellId) (selfOpts : OptsId)
    (k : String) (sh : ShellId → ShellState) (ctxs : List (ShellId × OptsId))
    (s : ShellId) : Bool :=
  ctxs.any (fun c => c.1 == s && c.1 != selfShell && c.2 != selfOpts
    && !(sh c.1).isExecuting
    && (getKeyV2 (env c.2) (sh c.1).payload == some k))

/-- A shell that has finished and is idle, with empty payload and zeroed
result slots. -/
def shellDone : ShellState := ⟨true, false, [], 0, 0⟩

/-- A shell before its first execution. -/
def shellFresh : ShellState := ⟨false, false, [], 0, 0⟩

/-- Variant 1 options: static key "k", cacheTime 100, at every options
identity. -/
def env1k : OptsId → SWROptV1 :=
  fun _ => ⟨some (MaybeFn.value "k"), some (MaybeFn.value 100)⟩

/-- Variant 1 options: static key "k", cacheTime 0. -/
def env1z : OptsId → SWROptV1 :=
  fun _ => ⟨some (MaybeFn.value "k"), some (MaybeFn.value 0)⟩

/-- Variant 2 options: static key "k", cacheTime 1000. -/
def env2k : OptsId → SWROptV2 := fun _ => ⟨some (MaybeFn.value "k"), some 1000⟩

/-- Variant 2 options: static key "k", cacheTime 100. -/
def env2h : OptsId → SWROptV2 := fun _ => ⟨some (MaybeFn.value "k"), some 100⟩

/-- Variant 2 options: static key "k", cacheTime 0. -/
def env2z : OptsId → SWROptV2 := fun _ => ⟨some (MaybeFn.value "k"), some 0⟩

/-- A state with one in-flight entry at key "k": EXPIRED, pending promise 7,
one registered context (shell 0, options 0); every shell finished and idle. -/
def stPending : SWRState :=
  { shells := fun _ => shellDone,
    cacheMap := fun k => if k = "k" then some ⟨none, some 7, [(0, 0)]⟩ else none }

/-- A state with one populated entry at key "k": lastUpdateTime 1000,
retained promise 5, one registered context (shell 0, options 0). -/
def stPopulated : SWRState :=
  { shells := fun _ => shellDone,
    cacheMap := fun k => if k = "k" then some ⟨some 1000, some 5, [(0, 0)]⟩ else none }

/-- A state with an empty cache map. -/
def stEmpty : SWRState := { shells := fun _ => shellDone, cacheMap := fun _ => none }

/-- A state whose entry at "k" is EXPIRED with pending promise 5 and one
registered context (shell 1, options 0): options identity 0 is shared with
the subscriber that will fire the success hook. -/
def stAliased : SWRState :=
  { shells := fun _ => shellDone,
    cacheMap := fun k => if k = "k" then some ⟨none, some 5, [(1, 0)]⟩ else none }

/-- As stAliased but the registered context is (shell 1, options 1), with an
options identity of its own. -/
def stSibling : SWRState :=
  { shells := fun _ => shellDone,
    cacheMap := fun k => if k = "k" then some ⟨none, some 5, [(1, 1)]⟩ else none }

/-- A state with a populated entry at "k" registered to (shell 0, options 0)
and (shell 1, options 1). -/
def stTwo : SWRState :=
  { shells := fun _ => shellDone,
    cacheMap := fun k => if k = "k" then some ⟨some 10, some 7, [(0, 0), (1, 1)]⟩ else none }

theorem mapSet_self (m : CacheMap) (k : String) (c : CacheModel) :
    mapSet m k c k = some c := by
  simp [mapSet]

theorem mapSet_ne (m : CacheMap) (k k2 : String) (c : CacheModel) (h : k2 ≠ k) :
    mapSet m k c k2 = m k2 := by
  simp [mapSet, h]

theorem expireAt_self (m : CacheMap) (k : String) :
    expireAt m k k = (m k).map expireCache := by
  simp [expireAt]

theorem expireAt_ne (m : CacheMap) (k k2 : String) (h : k2 ≠ k) :
    expireAt m k k2 = m k2 := by
  simp [expireAt, h]

theorem listAnyCongr {α : Type} {l : List α} {f g : α → Bool}
    (h : ∀ a ∈ l, f a = g a) : l.any f = l.any g := by
  induction l with
  | nil => rfl
  | cons a l ih =>
    have ha := h a (by simp)
    have hrest := ih (fun b hb => h b (by simp [hb]))
    simp [List.any_cons, ha, hrest]

theorem anyFilter {α : Type} (l : List α) (p q : α → Bool) :
    (l.filter p).any q = l.any (fun a => p a && q a) := by
  induction l with
  | nil => rfl
  | cons a l ih =>
    cases hp : p a <;> simp [List.filter_cons, hp, ih]

theorem updateShellData_idem (r d : Val) (s : ShellState) :
    updateShellData r d (updateShellData r d s) = updateShellData r d s := rfl

theorem getKeyV1_updateShellData (o : SWROptV1) (r d : Val) (s : ShellState) :
    getKeyV1 o (updateShellData r d s).payload (updateShellData r d s)
      = getKeyV1 o s.payload s := rfl

theorem getKeyV1_noRecord (o : SWROptV1) (p : Payload) (s : ShellState)
    (h1 : s.isFinished = false) (h2 : s.isExecuting = false) :
    getKeyV1 o p s = none := by
  simp [getKeyV1, h1, h2]

theorem bcastFold_apply
    (cond : (ShellId → ShellState) → ShellId × OptsId → Bool) (r d : Val)
    (hinv : ∀ (g : ShellId → ShellState) (i : ShellId) (c : ShellId × OptsId),
      cond (shellSet i (updateShellData r d (g i)) g) c = cond g c)
    (targets : List (ShellId × OptsId)) (sh : ShellId → ShellState) (s : ShellId) :
    bcastFold cond r d targets sh s =
      if targets.any (fun c => c.1 == s && cond sh c)
      then updateShellData r d (sh s) else sh s := by
  induction targets generalizing sh with
  | nil => simp [bcastFold]
  | cons c rest ih =>
    have hstep : bcastFold cond r d (c :: rest) sh
        = bcastFold cond r d rest
            (if cond sh c then shellSet c.1 (updateShellData r d (sh c.1)) sh else sh) := rfl
    rw [hstep]
    by_cases hc : cond sh c = true
    · rw [if_pos hc]
      rw [ih (shellSet c.1 (updateShellData r d (sh c.1)) sh)]
      have hany : rest.any (fun e => e.1 == s
            && cond (shellSet c.1 (updateShellData r d (sh c.1)) sh) e)
          = rest.any (fun e => e.1 == s && cond sh e) := by
        refine listAnyCongr (fun e _ => ?_)
        rw [hinv sh c.1 e]
      rw [hany]
      by_cases hs : c.1 = s
      · subst hs
        have hshs : shellSet c.1 (updateShellData r d (sh c.1)) sh c.1
            = updateShellData r d (sh c.1) := by
          simp [shellSet]
        rw [hshs]
        have hhead : (c :: rest).any (fun e => e.1 == c.1 && cond sh e) = true := by
          simp [List.any_cons, hc]
        rw [hhead, if_pos rfl]
        cases hr : rest.any (fun e => e.1 == c.1 && cond sh e) <;>
          simp [hr, updateShellData_idem]
      · have hshs : shellSet c.1 (updateShellData r d (sh c.1)) sh s = sh s := by
          simp only [shellSet]
          rw [if_neg (fun h => hs h.symm)]
        rw [hshs]
        have hhead : (c :: rest).any (fun e => e.1 == s && cond sh e)
            = rest.any (fun e => e.1 == s && cond sh e) := by
          simp [List.any_cons, hs]
        rw [hhead]
    · rw [if_neg hc, ih sh]
      have hb : cond sh c = false := by
        cases h2 : cond sh c
        · rfl
        · exact absurd h2 hc
      have hhead : (c :: rest).any (fun e => e.1 == s && cond sh e)
          = rest.any (fun e => e.1 == s && cond sh e) := by
        simp [List.any_cons, hb]
      rw [hhead]

theorem boolRearrangeV1 (a b f e m cs : Bool) (h : f = false → e = false → m = false) :
    (a && b && (f && !e) && (cs && m)) = (cs && a && b && !e && m) := by
  revert h
  cases a <;> cases b <;> cases f <;> cases e <;> cases m <;> cases cs <;> decide

theorem boolRearrangeV2 (a b e m cs : Bool) :
    (a && b && !e && (cs && m)) = (cs && a && b && !e && m) := by
  cases a <;> cases b <;> cases e <;> cases m <;> cases cs <;> decide

theorem successHookV1_char (env : OptsId → SWROptV1) (selfShell : ShellId)
    (selfOpts : OptsId) (payload : Payload) (r d : Val) (now : Nat) (st : SWRState)
    (k : String) (cache : CacheModel)
    (hk : getKeyV1 (env selfOpts) payload (st.shells selfShell) = some k)
    (hkne : k ≠ "")
    (hc : st.cacheMap k = some cache)
    (hlt : cache.lastUpdateTime = none) :
    (successHookV1 env selfShell selfOpts payload r d now st).cacheMap k
        = some { cache with lastUpdateTime := some now }
    ∧ (∀ k2, k2 ≠ k →
        (successHookV1 env selfShell selfOpts payload r d now st).cacheMap k2
          = st.cacheMap k2)
    ∧ ∀ s, (successHookV1 env selfShell selfOpts payload r d now st).shells s =
        if broadcastTargetV1 env selfShell selfOpts k st.shells cache.contexts s
        then updateShellData r d (st.shells s) else st.shells s := by
  have hun : successHookV1 env selfShell selfOpts payload r d now st
      = { shells := bcastFold
            (fun sh c => getKeyV1 (env c.2) (sh c.1).payload (sh c.1) == some k)
            r d
            (filterContexts selfShell selfOpts
              (fun c => (st.shells c.1).isFinished && !(st.shells c.1).isExecuting)
              cache.contexts)
            st.shells,
          cacheMap := mapSet st.cacheMap k { cache with lastUpdateTime := some now } } := by
    simp only [successHookV1, hk, hc, hlt]
    simp [hkne]
  refine ⟨?_, ?_, ?_⟩
  · rw [hun]
    exact mapSet_self st.cacheMap k _
  · intro k2 hk2
    rw [hun]
    exact mapSet_ne st.cacheMap k k2 _ hk2
  · intro s
    rw [hun]
    dsimp only
    have hinv : ∀ (g : ShellId → ShellState) (i : ShellId) (c : ShellId × OptsId),
        (getKeyV1 (env c.2) ((shellSet i (updateShellData r d (g i)) g) c.1).payload
            ((shellSet i (updateShellData r d (g i)) g) c.1) == some k)
        = (getKeyV1 (env c.2) (g c.1).payload (g c.1) == some k) := by
      intro g i c
      by_cases hci : c.1 = i
      · subst hci
        have hset : shellSet c.1 (updateShellData r d (g c.1)) g c.1
            = updateShellData r d (g c.1) := by
          simp [shellSet]
        simp only [hset, getKeyV1_updateShellData]
      · have hset : shellSet i (updateShellData r d (g i)) g c.1 = g c.1 := by
          simp [shellSet, hci]
        simp only [hset]
    rw [bcastFold_apply
      (fun sh c => getKeyV1 (env c.2) (sh c.1).payload (sh c.1) == some k)
      r d hinv _ st.shells s]
    have hcond : (filterContexts selfShell selfOpts
          (fun c => (st.shells c.1).isFinished && !(st.shells c.1).isExecuting)
          cache.contexts).any (fun c => c.1 == s
            && (getKeyV1 (env c.2) (st.shells c.1).payload (st.shells c.1) == some k))
        = broadcastTargetV1 env selfShell selfOpts k st.shells cache.contexts s := by
      rw [filterContexts, anyFilter, broadcastTargetV1]
      refine listAnyCongr (fun c _ => ?_)
      have hfe : (st.shells c.1).isFinished = false →
          (st.shells c.1).isExecuting = false →
          (getKeyV1 (env c.2) (st.shells c.1).payload (st.shells c.1) == some k)
            = false := by
        intro h1 h2
        rw [getKeyV1_noRecord _ _ _ h1 h2]
        rfl
      exact boolRearrangeV1 _ _ _ _ _ _ hfe
    rw [hcond]

theorem successHookV1_noop (env : OptsId → SWROptV1) (selfShell : ShellId)
    (selfOpts : OptsId) (payload : Payload) (r d : Val) (now : Nat) (st : SWRState)
    (k : String) (cache : CacheModel) (t : Nat)
    (hk : getKeyV1 (env selfOpts) payload (st.shells selfShell) = some k)
    (hc : st.cacheMap k = some cache)
    (hlt : cache.lastUpdateTime = some t) :
    successHookV1 env selfShell selfOpts payload r d now st = st := by
  simp [successHookV1, hk, hc, hlt]

theorem successHookV2_char (env : OptsId → SWROptV2) (selfShell : ShellId)
    (selfOpts : OptsId) (payload : Payload) (r d : Val) (now : Nat) (st : SWRState)
    (k : String) (cache : CacheModel)
    (hk : getKeyV2 (env selfOpts) payload = some k)
    (hkne : k ≠ "")
    (hc : st.cacheMap k = some cache)
    (hlt : cache.lastUpdateTime = none) :
    (successHookV2 env selfShell selfOpts payload r d now st).cacheMap k
        = some { cache with lastUpdateTime := some now }
    ∧ (∀ k2, k2 ≠ k →
        (successHookV2 env selfShell selfOpts payload r d now st).cacheMap k2
          = st.cacheMap k2)
    ∧ ∀ s, (successHookV2 env selfShell selfOpts payload r d now st).shells s =
        if broadcastTargetV2 env selfShell selfOpts k st.shells cache.contexts s
        then updateShellData r d (st.shells s) else st.shells s := by
  have hun : successHookV2 env selfShell selfOpts payload r d now st
      = { shells := bcastFold
            (fun sh c => getKeyV2 (env c.2) (sh c.1).payload == some k)
            r d
            (filterContexts selfShell selfOpts
              (fun c => !(st.shells c.1).isExecuting)
              cache.contexts)
            st.shells,
          cacheMap := mapSet st.cacheMap k { cache with lastUpdateTime := some now } } := by
    simp only [successHookV2, hk, hc, hlt]
    simp [hkne]
  refine ⟨?_, ?_, ?_⟩
  · rw [hun]
    exact mapSet_self st.cacheMap k _
  · intro k2 hk2
    rw [hun]
    exact mapSet_ne st.cacheMap k k2 _ hk2
  · intro s
    rw [hun]
    dsimp only
    have hinv : ∀ (g : ShellId → ShellState) (i : ShellId) (c : ShellId × OptsId),
        (getKeyV2 (env c.2) ((shellSet i (updateShellData r d (g i)) g) c.1).payload
          == some k)
        = (getKeyV2 (env c.2) (g c.1).payload == some k) := by
      intro g i c
      by_cases hci : c.1 = i
      · subst hci
        have hset : shellSet c.1 (updateShellData r d (g c.1)) g c.1
            = updateShellData r d (g c.1) := by
          simp [shellSet]
        simp only [hset]
        rfl
      · have hset : shellSet i (updateShellData r d (g i)) g c.1 = g c.1 := by
          simp [shellSet, hci]
        simp only [hset]
    rw [bcastFold_apply
      (fun sh c => getKeyV2 (env c.2) (sh c.1).payload == some k)
      r d hinv _ st.shells s]
    have hcond : (filterContexts selfShell selfOpts
          (fun c => !(st.shells c.1).isExecuting) cache.contexts).any
            (fun c => c.1 == s && (getKeyV2 (env c.2) (st.shells c.1).payload == some k))
        = broadcastTargetV2 env selfShell selfOpts k st.shells cache.contexts s := by
      rw [filterContexts, anyFilter, broadcastTargetV2]
      refine listAnyCongr (fun c _ => ?_)
      exact boolRearrangeV2 _ _ _ _ _
    rw [hcond]

theorem successHookV2_noop (env : OptsId → SWROptV2) (selfShell : ShellId)
    (selfOpts : OptsId) (payload : Payload) (r d : Val) (now : Nat) (st : SWRState)
    (k : String) (cache : CacheModel) (t : Nat)
    (hk : getKeyV2 (env selfOpts) payload = some k)
    (hc : st.cacheMap k = some cache)
    (hlt : cache.lastUpdateTime = some t) :
    successHookV2 env selfShell selfOpts payload r d now st = st := by
  simp [successHookV2, hk, hc, hlt]

theorem taskV1_pass_nokey (env : OptsId → SWROptV1) (selfShell : ShellId)
    (selfOpts : OptsId) (payload : Payload) (now fresh : Nat) (st : SWRState)
    (hk : getKeyV1 (env selfOpts) payload (st.shells selfShell) = none) :
    taskV1 env selfShell selfOpts payload now fresh st
      = (st, TaskOutcome.passthrough fresh) := by
  simp [taskV1, hk]

theorem taskV1_pass_guard (env : OptsId → SWROptV1) (selfShell : ShellId)
    (selfOpts : OptsId) (payload : Payload) (now fresh : Nat) (st : SWRState)
    (k : String)
    (hk : getKeyV1 (env selfOpts) payload (st.shells selfShell) = some k)
    (h : k = "" ∨ resolveCacheTimeV1 (env selfOpts) payload ≤ 0) :
    taskV1 env selfShell selfOpts payload now fresh st
      = (st, TaskOutcome.passthrough fresh) := by
  simp only [taskV1, hk]
  rw [if_pos h]

theorem taskV1_hit (env : OptsId → SWROptV1) (selfShell : ShellId) (selfOpts : OptsId)
    (payload : Payload) (now fresh : Nat) (st : SWRState) (k : String)
    (ct : Int) (c : CacheModel) (t0 : Nat) (p : Nat)
    (hk : getKeyV1 (env selfOpts) payload (st.shells selfShell) = some k)
    (hkne : k ≠ "")
    (hct : resolveCacheTimeV1 (env selfOpts) payload = ct)
    (hctpos : 0 < ct)
    (hc : st.cacheMap k = some c)
    (hlt : c.lastUpdateTime = some t0)
    (hage : ¬((now : Int) - (t0 : Int) > ct))
    (hp : c.promise = some p) :
    taskV1 env selfShell selfOpts payload now fresh st
      = ({ st with cacheMap := (mapSet st.cacheMap k
            { c with contexts := (filterContexts selfShell selfOpts (fun _ => true)
                c.contexts ++ [(selfShell, selfOpts)]) }) },
         TaskOutcome.shared p) := by
  have hguard : ¬(k = "" ∨ resolveCacheTimeV1 (env selfOpts) payload ≤ 0) := by
    rw [hct]
    push_neg
    exact ⟨hkne, hctpos⟩
  simp only [taskV1, hk]
  rw [if_neg hguard]
  simp only [hct, hc, Option.getD_some, hlt]
  rw [if_neg hage]
  simp [hp, hlt]

theorem taskV1_expired_refetch (env : OptsId → SWROptV1) (selfShell : ShellId)
    (selfOpts : OptsId) (payload : Payload) (now fresh : Nat) (st : SWRState)
    (k : String) (ct : Int) (c : CacheModel) (t0 : Nat)
    (hk : getKeyV1 (env selfOpts) payload (st.shells selfShell) = some k)
    (hkne : k ≠ "")
    (hct : resolveCacheTimeV1 (env selfOpts) payload = ct)
    (hctpos : 0 < ct)
    (hc : st.cacheMap k = some c)
    (hlt : c.lastUpdateTime = some t0)
    (hage : (now : Int) - (t0 : Int) > ct) :
    taskV1 env selfShell selfOpts payload now fresh st
      = ({ st with cacheMap := (mapSet st.cacheMap k
            { lastUpdateTime := none, promise := some fresh,
              contexts := (filterContexts selfShell selfOpts (fun _ => true)
                c.contexts ++ [(selfShell, selfOpts)]) }) },
         TaskOutcome.invoked fresh) := by
  have hguard : ¬(k = "" ∨ resolveCacheTimeV1 (env selfOpts) payload ≤ 0) := by
    rw [hct]
    push_neg
    exact ⟨hkne, hctpos⟩
  simp only [taskV1, hk]
  rw [if_neg hguard]
  simp only [hct, hc, Option.getD_some, hlt]
  rw [if_pos hage]
  simp [expireCache]

theorem taskV1_pending (env : OptsId → SWROptV1) (selfShell : ShellId)
    (selfOpts : OptsId) (payload : Payload) (now fresh : Nat) (st : SWRState)
    (k : String) (c : CacheModel) (p : Nat)
    (hk : getKeyV1 (env selfOpts) payload (st.shells selfShell) = some k)
    (hkne : k ≠ "")
    (hctpos : 0 < resolveCacheTimeV1 (env selfOpts) payload)
    (hc : st.cacheMap k = some c)
    (hlt : c.lastUpdateTime = none)
    (hp : c.promise = some p) :
    taskV1 env selfShell selfOpts payload now fresh st
      = ({ st with cacheMap := (mapSet st.cacheMap k
            { c with contexts := (filterContexts selfShell selfOpts (fun _ => true)
                c.contexts ++ [(selfShell, selfOpts)]) }) },
         TaskOutcome.shared p) := by
  have hguard : ¬(k = "" ∨ resolveCacheTimeV1 (env selfOpts) payload ≤ 0) := by
    push_neg
    exact ⟨hkne, hctpos⟩
  simp only [taskV1, hk]
  rw [if_neg hguard]
  simp [hc, hlt, hp]

theorem taskV1_invoke_idle (env : OptsId → SWROptV1) (selfShell : ShellId)
    (selfOpts : OptsId) (payload : Payload) (now fresh : Nat) (st : SWRState)
    (k : String) (c : CacheModel)
    (hk : getKeyV1 (env selfOpts) payload (st.shells selfShell) = some k)
    (hkne : k ≠ "")
    (hctpos : 0 < resolveCacheTimeV1 (env selfOpts) payload)
    (hc : st.cacheMap k = some c)
    (hlt : c.lastUpdateTime = none)
    (hp : c.promise = none) :
    taskV1 env selfShell selfOpts payload now fresh st
      = ({ st with cacheMap := (mapSet st.cacheMap k
            { c with
                promise := some fresh,
                contexts := (filterContexts selfShell selfOpts (fun _ => true)
                  c.contexts ++ [(selfShell, selfOpts)]) }) },
         TaskOutcome.invoked fresh) := by
  have hguard : ¬(k = "" ∨ resolveCacheTimeV1 (env selfOpts) payload ≤ 0) := by
    push_neg
    exact ⟨hkne, hctpos⟩
  simp only [taskV1, hk]
  rw [if_neg hguard]
  simp [hc, hlt, hp]

theorem taskV1_create (env : OptsId → SWROptV1) (selfShell : ShellId)
    (selfOpts : OptsId) (payload : Payload) (now fresh : Nat) (st : SWRState)
    (k : String)
    (hk : getKeyV1 (env selfOpts) payload (st.shells selfShell) = some k)
    (hkne : k ≠ "")
    (hctpos : 0 < resolveCacheTimeV1 (env selfOpts) payload)
    (hc : st.cacheMap k = none) :
    taskV1 env selfShell selfOpts payload now fresh st
      = ({ st with cacheMap := (mapSet st.cacheMap k
            { lastUpdateTime := none, promise := some fresh,
              contexts := [(selfShell, selfOpts)] }) },
         TaskOutcome.invoked fresh) := by
  have hguard : ¬(k = "" ∨ resolveCacheTimeV1 (env selfOpts) payload ≤ 0) := by
    push_neg
    exact ⟨hkne, hctpos⟩
  simp only [taskV1, hk]
  rw [if_neg hguard]
  simp [hc, initCache, filterContexts]

theorem taskV2_pass_nokey (env : OptsId → SWROptV2) (base : Int) (selfShell : ShellId)
    (selfOpts : OptsId) (payload : Payload) (now fresh : Nat) (st : SWRState)
    (hk : getKeyV2 (env selfOpts) payload = none) :
    taskV2 env base selfShell selfOpts payload now fresh st
      = (st, TaskOutcome.passthrough fresh) := by
  simp [taskV2, hk]

theorem taskV2_valid_shared (env : OptsId → SWROptV2) (base : Int) (selfShell : ShellId)
    (selfOpts : OptsId) (payload : Payload) (now fresh : Nat) (st : SWRState)
    (k : String) (c : CacheModel) (t0 : Nat) (p : Nat)
    (hk : getKeyV2 (env selfOpts) payload = some k)
    (hkne : k ≠ "")
    (hc : st.cacheMap k = some c)
    (hvalid : isValid (some c) (resolveCacheTimeV2 (env selfOpts) base) now = true)
    (hlt : c.lastUpdateTime = some t0)
    (hp : c.promise = some p) :
    taskV2 env base selfShell selfOpts payload now fresh st
      = ({ st with cacheMap := (mapSet st.cacheMap k
            { c with contexts := (filterContexts selfShell selfOpts (fun _ => true)
                c.contexts ++ [(selfShell, selfOpts)]) }) },
         TaskOutcome.shared p) := by
  simp only [taskV2, hk]
  rw [if_neg hkne]
  simp only [hc, hvalid, if_pos]
  simp [hlt, hp]

theorem taskV2_invalid_refetch (env : OptsId → SWROptV2) (base : Int)
    (selfShell : ShellId) (selfOpts : OptsId) (payload : Payload) (now fresh : Nat)
    (st : SWRState) (k : String) (c : CacheModel)
    (hk : getKeyV2 (env selfOpts) payload = some k)
    (hkne : k ≠ "")
    (hc : st.cacheMap k = some c)
    (hvalid : isValid (some c) (resolveCacheTimeV2 (env selfOpts) base) now = false) :
    taskV2 env base selfShell selfOpts payload now fresh st
      = ({ st with cacheMap := (mapSet st.cacheMap k
            { lastUpdateTime := none, promise := some fresh,
              contexts := (filterContexts selfShell selfOpts (fun _ => true)
                c.contexts ++ [(selfShell, selfOpts)]) }) },
         TaskOutcome.invoked fresh) := by
  simp only [taskV2, hk]
  rw [if_neg hkne]
  simp [hc, hvalid, expireCache]

theorem mem_filterContexts (selfShell : ShellId) (selfOpts : OptsId)
    (pred : ShellId × OptsId → Bool) (ctxs : List (ShellId × OptsId))
    (x : ShellId × OptsId) :
    x ∈ filterContexts selfShell selfOpts pred ctxs
      ↔ x ∈ ctxs ∧ x.1 ≠ selfShell ∧ x.2 ≠ selfOpts ∧ pred x = true := by
  simp [filterContexts, List.mem_filter, and_assoc]

theorem count_reg_self (selfShell : ShellId) (selfOpts : OptsId)
    (ctxs : List (ShellId × OptsId)) :
    (filterContexts selfShell selfOpts (fun _ => true) ctxs
        ++ [(selfShell, selfOpts)]).count (selfShell, selfOpts) = 1 := by
  rw [List.count_append]
  have h0 : (filterContexts selfShell selfOpts (fun _ => true) ctxs).count
      (selfShell, selfOpts) = 0 := by
    rw [List.count_eq_zero]
    intro hmem
    rw [mem_filterContexts] at hmem
    exact hmem.2.1 rfl
  rw [h0]
  simp

theorem count_reg_other (selfShell : ShellId) (selfOpts : OptsId)
    (ctxs : List (ShellId × OptsId)) (x : ShellId × OptsId)
    (hx : x ≠ (selfShell, selfOpts)) :
    (filterContexts selfShell selfOpts (fun _ => true) ctxs
        ++ [(selfShell, selfOpts)]).count x ≤ ctxs.count x := by
  rw [List.count_append]
  have h1 : ([(selfShell, selfOpts)] : List (ShellId × OptsId)).count x = 0 := by
    rw [List.count_eq_zero]
    simp [hx]
  rw [h1, Nat.add_zero]
  exact (List.filter_sublist ctxs).count_le x

theorem reg_evicts_sameOpts (selfShell : ShellId) (selfOpts : OptsId)
    (ctxs : List (ShellId × OptsId)) (s2 : ShellId) (hs2 : s2 ≠ selfShell) :
    (s2, selfOpts) ∉ filterContexts selfShell selfOpts (fun _ => true) ctxs
        ++ [(selfShell, selfOpts)] := by
  intro h
  rcases List.mem_append.mp h with h | h
  · rw [mem_filterContexts] at h
    exact h.2.2.1 rfl
  · simp at h
    exact hs2 h

theorem scopeDispose_prunes (selfShell : ShellId) (selfOpts : OptsId) (st : SWRState)
    (k : String) (c2 : CacheModel)
    (h : (scopeDispose selfShell selfOpts st).cacheMap k = some c2) :
    ∀ x ∈ c2.contexts, x.1 ≠ selfShell ∧ x.2 ≠ selfOpts := by
  intro x hx
  rcases hm : st.cacheMap k with _ | c
  · simp [scopeDispose, hm] at h
  · simp only [scopeDispose] at h
    rw [hm] at h
    by_cases he : (filterContexts selfShell selfOpts (fun _ => true) c.contexts).isEmpty
    · simp [he] at h
    · simp [he] at h
      rw [← h] at hx
      have := (mem_filterContexts selfShell selfOpts (fun _ => true) c.contexts x).mp hx
      exact ⟨this.2.1, this.2.2.1⟩

theorem scopeDispose_deletes (selfShell : ShellId) (selfOpts : OptsId) (st : SWRState)
    (k : String) (c : CacheModel)
    (hm : st.cacheMap k = some c)
    (he : filterContexts selfShell selfOpts (fun _ => true) c.contexts = []) :
    (scopeDispose selfShell selfOpts st).cacheMap k = none := by
  simp [scopeDispose, hm, he]

theorem scopeDispose_keeps (selfShell : ShellId) (selfOpts : OptsId) (st : SWRState)
    (k : String) (c : CacheModel)
    (hm : st.cacheMap k = some c)
    (he : filterContexts selfShell selfOpts (fun _ => true) c.contexts ≠ []) :
    (scopeDispose selfShell selfOpts st).cacheMap k
      = some { c with
          contexts := filterContexts selfShell selfOpts (fun _ => true) c.contexts } := by
  simp [scopeDispose, hm, he]

theorem scopeDispose_absent (selfShell : ShellId) (selfOpts : OptsId) (st : SWRState)
    (k : String) (hm : st.cacheMap k = none) :
    (scopeDispose selfShell selfOpts st).cacheMap k = none := by
  simp [scopeDispose, hm]

theorem taskV1_contexts (env : OptsId → SWROptV1) (selfShell : ShellId)
    (selfOpts : OptsId) (payload : Payload) (now fresh : Nat) (st : SWRState)
    (k : String)
    (hk : getKeyV1 (env selfOpts) payload (st.shells selfShell) = some k)
    (hkne : k ≠ "")
    (hctpos : 0 < resolveCacheTimeV1 (env selfOpts) payload) :
    ((taskV1 env selfShell selfOpts payload now fresh st).1.cacheMap k).map
        (fun e => e.contexts)
      = some (filterContexts selfShell selfOpts (fun _ => true)
          ((st.cacheMap k).getD initCache).contexts ++ [(selfShell, selfOpts)]) := by
  have hguard : ¬(k = "" ∨ resolveCacheTimeV1 (env selfOpts) payload ≤ 0) := by
    push_neg
    exact ⟨hkne, hctpos⟩
  simp only [taskV1, hk]
  rw [if_neg hguard]
  rcases hm : st.cacheMap k with _ | c
  · simp [initCache, mapSet_self]
  · simp only [Option.getD_some]
    rcases hl : c.lastUpdateTime with _ | t
    · rcases hpm : c.promise with _ | p <;> simp [hpm, mapSet_self]
    · by_cases hage : (now : Int) - (t : Int) > resolveCacheTimeV1 (env selfOpts) payload
      · simp [hage, expireCache, mapSet_self]
      · rcases hpm : c.promise with _ | p <;> simp [hage, hpm, mapSet_self]

theorem taskV2_contexts (env : OptsId → SWROptV2) (base : Int) (selfShell : ShellId)
    (selfOpts : OptsId) (payload : Payload) (now fresh : Nat) (st : SWRState)
    (k : String)
    (hk : getKeyV2 (env selfOpts) payload = some k)
    (hkne : k ≠ "") :
    ((taskV2 env base selfShell selfOpts payload now fresh st).1.cacheMap k).map
        (fun e => e.contexts)
      = some (filterContexts selfShell selfOpts (fun _ => true)
          ((st.cacheMap k).getD initCache).contexts ++ [(selfShell, selfOpts)]) := by
  simp only [taskV2, hk]
  rw [if_neg hkne]
  rcases hm : st.cacheMap k with _ | c
  · simp [initCache, mapSet_self]
  · simp only [Option.getD_some]
    by_cases hv : isValid (some c) (resolveCacheTimeV2 (env selfOpts) base) now
    · rw [if_pos hv]
      rcases hl : c.lastUpdateTime with _ | t <;>
        rcases hpm : c.promise with _ | p <;> simp [hl, hpm, mapSet_self]
    · rw [if_neg hv]
      simp [expireCache, mapSet_self]

theorem taskV2_create (env : OptsId → SWROptV2) (base : Int) (selfShell : ShellId)
    (selfOpts : OptsId) (payload : Payload) (now fresh : Nat) (st : SWRState)
    (k : String)
    (hk : getKeyV2 (env selfOpts) payload = some k)
    (hkne : k ≠ "")
    (hc : st.cacheMap k = none) :
    taskV2 env base selfShell selfOpts payload now fresh st
      = ({ st with cacheMap := (mapSet st.cacheMap k
            { lastUpdateTime := none, promise := some fresh,
              contexts := [(selfShell, selfOpts)] }) },
         TaskOutcome.invoked fresh) := by
  simp only [taskV2, hk]
  rw [if_neg hkne]
  simp [hc, initCache, filterContexts]

/-- C1: the claim states that whenever an execution enters the task wrapper
while the entry carries a pending promise, the wrapper returns that same
shared promise without invoking the underlying operation, so concurrent
same-key calls invoke the operation exactly once.  The first variant does
exactly this, but the second variant additionally requires lastUpdateTime
not to be the EXPIRED sentinel, so a concurrent call arriving before the
first success re-invokes the raw task and overwrites the pending promise;
the repository changelog lists this as a bug fix (promise not shared when
repeatedly executing the same task).  This theorem evaluates both wrappers
at the failing input: key "k", entry EXPIRED with pending promise 7. -/
theorem C1_code_divergence :
    (taskV2 env2k 0 1 1 [] 50 8 stPending).2 = TaskOutcome.invoked 8
    ∧ (taskV2 env2k 0 1 1 [] 50 8 stPending).1.cacheMap "k"
        = some ⟨none, some 8, [(0, 0), (1, 1)]⟩
    ∧ (taskV1 env1k 1 1 [] 50 8 stPending).2 = TaskOutcome.shared 7
    ∧ (taskV1 env1k 1 1 [] 50 8 stPending).1.cacheMap "k"
        = some ⟨none, some 7, [(0, 0), (1, 1)]⟩ := by
  exact ⟨by decide, by decide, by decide, by decide⟩

/-- C2 counterexample: the claim says a same-key call at exactly t1 = t0 + T
finds the entry invalid and invokes the underlying operation.  With T = 100
and an entry populated at t0 = 1000 holding promise 5, the first variant at
t1 = 1100 returns the shared promise and leaves the timestamp untouched,
because its expiry test is strict (age > cacheTime). -/
theorem C2_counterexample :
    (taskV1 env1k 1 1 [] 1100 9 stPopulated).2 = TaskOutcome.shared 5
    ∧ (taskV1 env1k 1 1 [] 1100 9 stPopulated).1.cacheMap "k"
        = some ⟨some 1000, some 5, [(0, 0), (1, 1)]⟩ := by
  exact ⟨by decide, by decide⟩

/-- C2 amended: validity in the second variant is lastUpdateTime not EXPIRED
and now minus lastUpdateTime strictly below cacheTime (given cacheTime
positive).  After a successful call stamped at t0, a later same-key call at
t1 does not re-invoke while the age is within the window, and re-invokes
once it is out; the boundary differs per variant: variant 1 expires only
when the age strictly exceeds cacheTime, so at exactly t1 = t0 + cacheTime
it still returns the shared promise, while variant 2 requires age strictly
below cacheTime, so at exactly t1 = t0 + cacheTime it re-invokes. -/
theorem C2_amended (env1 : OptsId → SWROptV1) (env2 : OptsId → SWROptV2)
    (base ct : Int) (selfShell : ShellId) (selfOpts : OptsId) (payload : Payload)
    (st : SWRState) (k : String) (c : CacheModel) (t0 p : Nat)
    (hctpos : 0 < ct)
    (hk1 : getKeyV1 (env1 selfOpts) payload (st.shells selfShell) = some k)
    (hk2 : getKeyV2 (env2 selfOpts) payload = some k)
    (hkne : k ≠ "")
    (hct1 : resolveCacheTimeV1 (env1 selfOpts) payload = ct)
    (hct2 : resolveCacheTimeV2 (env2 selfOpts) base = ct)
    (hc : st.cacheMap k = some c)
    (hlt : c.lastUpdateTime = some t0)
    (hp : c.promise = some p) :
    (∀ now : Nat, isValid (some c) ct now = true ↔ (now : Int) - (t0 : Int) < ct)
    ∧ (∀ t1 fresh : Nat, (t1 : Int) - (t0 : Int) ≤ ct →
        (taskV1 env1 selfShell selfOpts payload t1 fresh st).2 = TaskOutcome.shared p)
    ∧ (∀ t1 fresh : Nat, (t1 : Int) - (t0 : Int) > ct →
        (taskV1 env1 selfShell selfOpts payload t1 fresh st).2
          = TaskOutcome.invoked fresh)
    ∧ (∀ t1 fresh : Nat, (t1 : Int) - (t0 : Int) < ct →
        (taskV2 env2 base selfShell selfOpts payload t1 fresh st).2
          = TaskOutcome.shared p)
    ∧ (∀ t1 fresh : Nat, (t1 : Int) - (t0 : Int) ≥ ct →
        (taskV2 env2 base selfShell selfOpts payload t1 fresh st).2
          = TaskOutcome.invoked fresh) := by
  refine ⟨?_, ?_, ?_, ?_, ?_⟩
  · intro now
    simp [isValid, hlt, hctpos]
  · intro t1 fresh h
    rw [taskV1_hit env1 selfShell selfOpts payload t1 fresh st k ct c t0 p
      hk1 hkne hct1 hctpos hc hlt (not_lt.mpr h) hp]
  · intro t1 fresh h
    rw [taskV1_expired_refetch env1 selfShell selfOpts payload t1 fresh st k ct c t0
      hk1 hkne hct1 hctpos hc hlt h]
  · intro t1 fresh h
    have hv : isValid (some c) (resolveCacheTimeV2 (env2 selfOpts) base) t1 = true := by
      rw [hct2]
      simp [isValid, hlt, hctpos, h]
    rw [taskV2_valid_shared env2 base selfShell selfOpts payload t1 fresh st k c t0 p
      hk2 hkne hc hv hlt hp]
  · intro t1 fresh h
    have hv : isValid (some c) (resolveCacheTimeV2 (env2 selfOpts) base) t1 = false := by
      rw [hct2]
      simp [isValid, hlt, not_lt.mpr h]
    rw [taskV2_invalid_refetch env2 base selfShell selfOpts payload t1 fresh st k c
      hk2 hkne hc hv]

/-- C2 witness: at cacheTime 100 with an entry populated at t0 = 1000, a
call at t1 = 1050 returns the shared promise in variant 1, and a call at
t1 = 1100 re-invokes in variant 2. -/
theorem C2_witness :
    (taskV1 env1k 1 1 [] 1050 9 stPopulated).2 = TaskOutcome.shared 5
    ∧ (taskV2 env2h 0 1 1 [] 1100 9 stPopulated).2 = TaskOutcome.invoked 9 := by
  have h := C2_amended env1k env2h 0 100 1 1 [] stPopulated "k"
    ⟨some 1000, some 5, [(0, 0)]⟩ 1000 5 (by decide) (by decide) (by decide)
    (by decide) (by decide) (by decide) (by decide) (by decide) (by decide)
  exact ⟨h.2.1 1050 9 (by decide), h.2.2.2.2 1100 9 (by decide)⟩

/-- C3: when the promise stored for a key rejects, the attached catch expires
the entry: lastUpdateTime becomes the EXPIRED sentinel, the pending promise
is cleared, the contexts and the rest of the store and all shells are
untouched.  Every caller that entered while the promise was pending was
handed that same promise p (so the rejection reaches them through the shared
promise, a fact of the promise runtime represented here by the shared
identifier), and a subsequent same-key call finds no pending promise and
re-invokes the raw task instead of replaying the rejection. -/
theorem C3_rejection_invalidates (env : OptsId → SWROptV1) (selfShell : ShellId)
    (selfOpts : OptsId) (payload : Payload) (st : SWRState) (k : String)
    (c : CacheModel) (p : Nat)
    (hk : getKeyV1 (env selfOpts) payload (st.shells selfShell) = some k)
    (hkne : k ≠ "")
    (hctpos : 0 < resolveCacheTimeV1 (env selfOpts) payload)
    (hc : st.cacheMap k = some c)
    (hlt : c.lastUpdateTime = none)
    (hp : c.promise = some p) :
    (∀ now fresh : Nat,
      (taskV1 env selfShell selfOpts payload now fresh st).2 = TaskOutcome.shared p)
    ∧ (promiseRejected k st).cacheMap k = some ⟨none, none, c.contexts⟩
    ∧ (∀ k2, k2 ≠ k → (promiseRejected k st).cacheMap k2 = st.cacheMap k2)
    ∧ (promiseRejected k st).shells = st.shells
    ∧ (∀ now fresh : Nat,
        (taskV1 env selfShell selfOpts payload now fresh (promiseRejected k st)).2
          = TaskOutcome.invoked fresh) := by
  refine ⟨?_, ?_, ?_, ?_, ?_⟩
  · intro now fresh
    rw [taskV1_pending env selfShell selfOpts payload now fresh st k c p
      hk hkne hctpos hc hlt hp]
  · show expireAt st.cacheMap k k = some ⟨none, none, c.contexts⟩
    rw [expireAt_self, hc]
    rfl
  · intro k2 hk2
    exact expireAt_ne st.cacheMap k k2 hk2
  · rfl
  · intro now fresh
    have hc2 : (promiseRejected k st).cacheMap k = some ⟨none, none, c.contexts⟩ := by
      show expireAt st.cacheMap k k = some ⟨none, none, c.contexts⟩
      rw [expireAt_self, hc]
      rfl
    rw [taskV1_invoke_idle env selfShell selfOpts payload now fresh
      (promiseRejected k st) k ⟨none, none, c.contexts⟩ hk hkne hctpos hc2 rfl rfl]

/-- C3 witness: in stPending the pending promise 7 is shared with a second
caller; after the rejection the entry at "k" is EXPIRED with its context
kept, and the next call invokes the raw task afresh. -/
theorem C3_witness :
    (taskV1 env1k 1 1 [] 50 8 stPending).2 = TaskOutcome.shared 7
    ∧ (promiseRejected "k" stPending).cacheMap "k" = some ⟨none, none, [(0, 0)]⟩
    ∧ (taskV1 env1k 1 1 [] 60 9 (promiseRejected "k" stPending)).2
        = TaskOutcome.invoked 9 := by
  have h := C3_rejection_invalidates env1k 1 1 [] stPending "k"
    ⟨none, some 7, [(0, 0)]⟩ 7 (by decide) (by decide) (by decide) (by decide)
    (by decide) (by decide)
  exact ⟨h.1 50 8, h.2.1, h.2.2.2.2 60 9⟩

/-- C4 counterexample: the claim says the broadcast sets the slots of every
other registered subscriber whose re-resolved key equals the populated key
and who is not executing.  In stAliased, subscriber (shell 1, options 0) is
registered on the entry at "k", is finished and not executing, and its
re-resolved key is "k"; yet when (shell 0, options 0) populates the entry,
the broadcast skips shell 1 because the two subscribers share the options
object, so shell 1 keeps its old result slots. -/
theorem C4_counterexample :
    ((stAliased.cacheMap "k").getD initCache).contexts = [(1, 0)]
    ∧ (stAliased.shells 1).isExecuting = false
    ∧ getKeyV1 (env1k 0) [] (stAliased.shells 1) = some "k"
    ∧ (successHookV1 env1k 0 0 [] 9 9 100 stAliased).cacheMap "k"
        = some ⟨some 100, some 5, [(1, 0)]⟩
    ∧ (successHookV1 env1k 0 0 [] 9 9 100 stAliased).shells 1 = shellDone := by
  exact ⟨by decide, by decide, by decide, by decide, by decide⟩

/-- C4 amended: on each successful population of a key (entry present and
still EXPIRED), the hook stamps lastUpdateTime once and sets the raw and
transformed result slots of exactly those registered subscribers whose shell
and whose options object both differ from the firing subscriber, whose key,
re-resolved at broadcast time from their own options and current payload,
equals the populated key, and who are not executing (in variant 1 the filter
also demands isFinished, which key re-resolution implies for a non-executing
shell); the rest of the store and all other shells are untouched; once
lastUpdateTime is stamped, any further firing of the hook for that key is a
no-op, so the broadcast happens exactly once per population. -/
theorem C4_amended (env1 : OptsId → SWROptV1) (env2 : OptsId → SWROptV2) :
    (∀ selfShell selfOpts payload r d now st k cache,
      getKeyV1 (env1 selfOpts) payload (st.shells selfShell) = some k → k ≠ "" →
      st.cacheMap k = some cache → cache.lastUpdateTime = none →
      (successHookV1 env1 selfShell selfOpts payload r d now st).cacheMap k
          = some { cache with lastUpdateTime := some now }
        ∧ (∀ k2, k2 ≠ k →
            (successHookV1 env1 selfShell selfOpts payload r d now st).cacheMap k2
              = st.cacheMap k2)
        ∧ ∀ s, (successHookV1 env1 selfShell selfOpts payload r d now st).shells s =
            if broadcastTargetV1 env1 selfShell selfOpts k st.shells cache.contexts s
            then updateShellData r d (st.shells s) else st.shells s)
    ∧ (∀ selfShell selfOpts payload r d now st k cache t,
        getKeyV1 (env1 selfOpts) payload (st.shells selfShell) = some k →
        st.cacheMap k = some cache → cache.lastUpdateTime = some t →
        successHookV1 env1 selfShell selfOpts payload r d now st = st)
    ∧ (∀ selfShell selfOpts payload r d now st k cache,
        getKeyV2 (env2 selfOpts) payload = some k → k ≠ "" →
        st.cacheMap k = some cache → cache.lastUpdateTime = none →
        (successHookV2 env2 selfShell selfOpts payload r d now st).cacheMap k
            = some { cache with lastUpdateTime := some now }
          ∧ (∀ k2, k2 ≠ k →
              (successHookV2 env2 selfShell selfOpts payload r d now st).cacheMap k2
                = st.cacheMap k2)
          ∧ ∀ s, (successHookV2 env2 selfShell selfOpts payload r d now st).shells s =
              if broadcastTargetV2 env2 selfShell selfOpts k st.shells cache.contexts s
              then updateShellData r d (st.shells s) else st.shells s)
    ∧ (∀ selfShell selfOpts payload r d now st k cache t,
        getKeyV2 (env2 selfOpts) payload = some k →
        st.cacheMap k = some cache → cache.lastUpdateTime = some t →
        successHookV2 env2 selfShell selfOpts payload r d now st = st) := by
  refine ⟨?_, ?_, ?_, ?_⟩
  · intro selfShell selfOpts payload r d now st k cache hk hkne hc hlt
    exact successHookV1_char env1 selfShell selfOpts payload r d now st k cache
      hk hkne hc hlt
  · intro selfShell selfOpts payload r d now st k cache t hk hc hlt
    exact successHookV1_noop env1 selfShell selfOpts payload r d now st k cache t
      hk hc hlt
  · intro selfShell selfOpts payload r d now st k cache hk hkne hc hlt
    exact successHookV2_char env2 selfShell selfOpts payload r d now st k cache
      hk hkne hc hlt
  · intro selfShell selfOpts payload r d now st k cache t hk hc hlt
    exact successHookV2_noop env2 selfShell selfOpts payload r d now st k cache t
      hk hc hlt

/-- C4 witness: in stSibling the registered subscriber (shell 1, options 1)
has its own options object, so the population by (shell 0, options 0) sets
its slots to the broadcast values; and firing the hook on an
already-populated entry (stPopulated) changes nothing. -/
theorem C4_witness :
    (successHookV1 env1k 0 0 [] 9 9 100 stSibling).shells 1
        = updateShellData 9 9 (stSibling.shells 1)
    ∧ (successHookV1 env1k 0 0 [] 9 9 100 stSibling).cacheMap "k"
        = some ⟨some 100, some 5, [(1, 1)]⟩
    ∧ successHookV1 env1k 0 0 [] 9 9 100 stPopulated = stPopulated := by
  have h := (C4_amended env1k env2k).1 0 0 [] 9 9 100 stSibling "k"
    ⟨none, some 5, [(1, 1)]⟩ (by decide) (by decide) (by decide) (by decide)
  refine ⟨?_, ?_, ?_⟩
  · have h3 := h.2.2 1
    rw [h3, if_pos (by decide)]
  · have h1 := h.1
    rw [h1]
  · exact (C4_amended env1k env2k).2.1 0 0 [] 9 9 100 stPopulated "k"
      ⟨some 1000, some 5, [(0, 0)]⟩ 1000 (by decide) (by decide) (by decide)

/-- C5 counterexample: the claim says a static key is returned even before
the first execution and a function key is evaluated only once an execution
record exists.  In variant 1 a static key resolves to none on a shell with
no execution record; in variant 2 a function key is evaluated although that
resolver never consults the shell, so no execution record is required. -/
theorem C5_counterexample :
    getKeyV1 ⟨some (MaybeFn.value "k"), none⟩ [] shellFresh = none
    ∧ getKeyV2 ⟨some (MaybeFn.fn (fun _ => "fk")), none⟩ [3] = some "fk" := by
  exact ⟨by decide, rfl⟩

/-- C5 amended: both resolvers return no key when no key specification is
configured.  Variant 1 guards every key specification, static ones included,
on the subscriber having an execution record (finished at least once or
currently executing): before that it returns no key, and with a record it
resolves the specification.  Variant 2 never guards: any truthy
specification, function-valued or static, is resolved on every call, even
before the first execution. -/
theorem C5_amended :
    (∀ (ct : Option (MaybeFn Int)) (p : Payload) (sh : ShellState),
      getKeyV1 ⟨none, ct⟩ p sh = none)
    ∧ (∀ (ct : Option Int) (p : Payload), getKeyV2 ⟨none, ct⟩ p = none)
    ∧ (∀ (o : SWROptV1) (p : Payload) (sh : ShellState),
        sh.isFinished = false → sh.isExecuting = false → getKeyV1 o p sh = none)
    ∧ (∀ (spec : MaybeFn String) (ct : Option (MaybeFn Int)) (p : Payload)
        (sh : ShellState), specTruthy (some spec) = true →
        (sh.isFinished = true ∨ sh.isExecuting = true) →
        getKeyV1 ⟨some spec, ct⟩ p sh = some (toValue spec p))
    ∧ (∀ (spec : MaybeFn String) (ct : Option Int) (p : Payload),
        specTruthy (some spec) = true →
        getKeyV2 ⟨some spec, ct⟩ p = some (toValue spec p)) := by
  refine ⟨?_, ?_, ?_, ?_, ?_⟩
  · intro ct p sh
    simp [getKeyV1, specTruthy]
  · intro ct p
    simp [getKeyV2, specTruthy]
  · intro o p sh h1 h2
    exact getKeyV1_noRecord o p sh h1 h2
  · intro spec ct p sh hs hrec
    have hb : (!sh.isFinished && !sh.isExecuting) = false := by
      rcases hrec with h | h <;> simp [h]
    simp [getKeyV1, hb, hs]
  · intro spec ct p hs
    simp [getKeyV2, hs]

/-- C5 witness: no specification resolves to no key; a static key on a
finished shell resolves in variant 1; a static key resolves in variant 2. -/
theorem C5_witness :
    getKeyV1 ⟨none, none⟩ [] shellDone = none
    ∧ getKeyV1 ⟨some (MaybeFn.value "k"), none⟩ [] shellDone = some "k"
    ∧ getKeyV2 ⟨some (MaybeFn.value "k"), none⟩ [] = some "k" := by
  obtain ⟨h1, h2, h3, h4, h5⟩ := C5_amended
  exact ⟨h1 none [] shellDone,
    h4 (MaybeFn.value "k") none [] shellDone (by decide) (Or.inl (by decide)),
    h5 (MaybeFn.value "k") none [] (by decide)⟩

/-- C6 counterexample: the claim says a call whose resolved cacheTime is not
positive passes through with no caching behaviour at all.  In variant 2 a
call with key "k" and cacheTime 0 on an empty store nevertheless creates the
entry, registers the subscriber on it and stores the pending promise. -/
theorem C6_counterexample :
    (taskV2 env2z 0 0 0 [] 50 8 stEmpty).1.cacheMap "k"
        = some ⟨none, some 8, [(0, 0)]⟩
    ∧ (taskV2 env2z 0 0 0 [] 50 8 stEmpty).2 = TaskOutcome.invoked 8 := by
  exact ⟨by decide, by decide⟩

/-- C6 amended: in variant 1 the call passes through untouched (state
unchanged, raw task called directly) when no key resolves or when the
resolved key is falsy or the resolved cacheTime is not positive.  In variant
2 only a missing or falsy key passes through; with a truthy key and
cacheTime not positive the wrapper still creates or looks up the entry,
registers the subscriber and stores a fresh pending promise, re-invoking the
raw task on every call since no entry can be valid. -/
theorem C6_amended (env1 : OptsId → SWROptV1) (env2 : OptsId → SWROptV2) (base : Int) :
    (∀ selfShell selfOpts payload now fresh st,
      getKeyV1 (env1 selfOpts) payload (st.shells selfShell) = none →
      taskV1 env1 selfShell selfOpts payload now fresh st
        = (st, TaskOutcome.passthrough fresh))
    ∧ (∀ selfShell selfOpts payload now fresh st k,
        getKeyV1 (env1 selfOpts) payload (st.shells selfShell) = some k →
        (k = "" ∨ resolveCacheTimeV1 (env1 selfOpts) payload ≤ 0) →
        taskV1 env1 selfShell selfOpts payload now fresh st
          = (st, TaskOutcome.passthrough fresh))
    ∧ (∀ selfShell selfOpts payload now fresh st,
        getKeyV2 (env2 selfOpts) payload = none →
        taskV2 env2 base selfShell selfOpts payload now fresh st
          = (st, TaskOutcome.passthrough fresh))
    ∧ (∀ selfShell selfOpts payload now fresh st k,
        getKeyV2 (env2 selfOpts) payload = some k → k ≠ "" →
        resolveCacheTimeV2 (env2 selfOpts) base ≤ 0 →
        (taskV2 env2 base selfShell selfOpts payload now fresh st).2
            = TaskOutcome.invoked fresh
          ∧ (taskV2 env2 base selfShell selfOpts payload now fresh st).1.cacheMap k
              = some ⟨none, some fresh,
                  filterContexts selfShell selfOpts (fun _ => true)
                    ((st.cacheMap k).getD initCache).contexts
                    ++ [(selfShell, selfOpts)]⟩) := by
  refine ⟨?_, ?_, ?_, ?_⟩
  · intro selfShell selfOpts payload now fresh st hk
    exact taskV1_pass_nokey env1 selfShell selfOpts payload now fresh st hk
  · intro selfShell selfOpts payload now fresh st k hk h
    exact taskV1_pass_guard env1 selfShell selfOpts payload now fresh st k hk h
  · intro selfShell selfOpts payload now fresh st hk
    exact taskV2_pass_nokey env2 base selfShell selfOpts payload now fresh st hk
  · intro selfShell selfOpts payload now fresh st k hk hkne hle
    have hgt : ¬(resolveCacheTimeV2 (env2 selfOpts) base > 0) := not_lt.mpr hle
    rcases hm : st.cacheMap k with _ | c
    · rw [taskV2_create env2 base selfShell selfOpts payload now fresh st k hk hkne hm]
      constructor
      · rfl
      · dsimp only
        rw [mapSet_self]
        simp [initCache, filterContexts]
    · have hv : isValid (some c) (resolveCacheTimeV2 (env2 selfOpts) base) now
          = false := by
        simp [isValid, hgt]
      rw [taskV2_invalid_refetch env2 base selfShell selfOpts payload now fresh st k c
        hk hkne hm hv]
      constructor
      · rfl
      · dsimp only
        rw [mapSet_self]
        simp

/-- C6 witness: variant 1 with cacheTime 0 passes a keyed call through
untouched, while variant 2 with cacheTime 0 invokes and caches. -/
theorem C6_witness :
    taskV1 env1z 0 0 [] 50 8 stEmpty = (stEmpty, TaskOutcome.passthrough 8)
    ∧ (taskV2 env2z 0 0 0 [] 50 8 stEmpty).2 = TaskOutcome.invoked 8 := by
  have h := C6_amended env1z env2z 0
  exact ⟨h.2.1 0 0 [] 50 8 stEmpty "k" (by decide) (Or.inr (by decide)),
    (h.2.2.2 0 0 [] 50 8 stEmpty "k" (by decide) (by decide) (by decide)).1⟩

/-- C8: when a subscriber's scope is disposed, every surviving entry has no
context carrying the disposing shell (whatever options object it was paired
with); every entry whose filtered context list is empty is deleted from the
store, and one whose filtered list is nonempty survives with exactly that
list; and a later keyed call on a key absent from the store creates a fresh
entry whose lastUpdateTime is the EXPIRED sentinel (storing the new pending
promise and registering the caller). -/
theorem C8_dispose_gc (env : OptsId → SWROptV1) (dShell : ShellId) (dOpts : OptsId)
    (st : SWRState) :
    (∀ k c2, (scopeDispose dShell dOpts st).cacheMap k = some c2 →
      ∀ o, (dShell, o) ∉ c2.contexts)
    ∧ (∀ k c, st.cacheMap k = some c →
        filterContexts dShell dOpts (fun _ => true) c.contexts = [] →
        (scopeDispose dShell dOpts st).cacheMap k = none)
    ∧ (∀ k c, st.cacheMap k = some c →
        filterContexts dShell dOpts (fun _ => true) c.contexts ≠ [] →
        (scopeDispose dShell dOpts st).cacheMap k
          = some { c with
              contexts := filterContexts dShell dOpts (fun _ => true) c.contexts })
    ∧ (∀ selfShell selfOpts payload now fresh st2 k,
        getKeyV1 (env selfOpts) payload (st2.shells selfShell) = some k → k ≠ "" →
        0 < resolveCacheTimeV1 (env selfOpts) payload →
        st2.cacheMap k = none →
        (taskV1 env selfShell selfOpts payload now fresh st2).1.cacheMap k
            = some ⟨none, some fresh, [(selfShell, selfOpts)]⟩
          ∧ (taskV1 env selfShell selfOpts payload now fresh st2).2
              = TaskOutcome.invoked fresh) := by
  refine ⟨?_, ?_, ?_, ?_⟩
  · intro k c2 h o hmem
    exact (scopeDispose_prunes dShell dOpts st k c2 h (dShell, o) hmem).1 rfl
  · intro k c hm he
    exact scopeDispose_deletes dShell dOpts st k c hm he
  · intro k c hm he
    exact scopeDispose_keeps dShell dOpts st k c hm he
  · intro selfShell selfOpts payload now fresh st2 k hk hkne hpos hm
    rw [taskV1_create env selfShell selfOpts payload now fresh st2 k hk hkne hpos hm]
    exact ⟨mapSet_self st2.cacheMap k _, rfl⟩

/-- C8 witness: disposing (shell 0, options 0) in stTwo prunes it but keeps
the entry for the remaining subscriber; disposing (shell 1, options 1) as
well deletes the entry; a later keyed call by (shell 2, options 2) recreates
it fresh and EXPIRED with the new pending promise. -/
theorem C8_witness :
    (scopeDispose 0 0 stTwo).cacheMap "k" = some ⟨some 10, some 7, [(1, 1)]⟩
    ∧ (scopeDispose 1 1 (scopeDispose 0 0 stTwo)).cacheMap "k" = none
    ∧ (taskV1 env1k 2 2 [] 50 8
          (scopeDispose 1 1 (scopeDispose 0 0 stTwo))).1.cacheMap "k"
        = some ⟨none, some 8, [(2, 2)]⟩ := by
  refine ⟨?_, ?_, ?_⟩
  · have h := (C8_dispose_gc env1k 0 0 stTwo).2.2.1 "k"
      ⟨some 10, some 7, [(0, 0), (1, 1)]⟩ (by decide) (by decide)
    rw [h]
    decide
  · have h := (C8_dispose_gc env1k 1 1 (scopeDispose 0 0 stTwo)).2.1 "k"
      ⟨some 10, some 7, [(1, 1)]⟩ (by decide) (by decide)
    exact h
  · have h := (C8_dispose_gc env1k 2 2 stTwo).2.2.2 2 2 [] 50 8
      (scopeDispose 1 1 (scopeDispose 0 0 stTwo)) "k" (by decide) (by decide)
      (by decide) (by decide)
    exact h.1

/-- C9: markExpired resolves the key from the explicit arguments when some
are given, else from the shell's last payload; if a truthy key resolves and
an entry exists, that entry gets the EXPIRED sentinel and its pending
promise cleared while staying in the store with its contexts unchanged, all
other keys and all shells untouched; if the key resolves but no entry
exists, or no key resolves, the whole state is unchanged. -/
theorem C9_markExpired (opts : SWROptV1) (selfShell : ShellId) (args : List Nat)
    (st : SWRState) :
    (∀ k c, getKeyV1 opts
          (if args.length > 0 then args else (st.shells selfShell).payload)
          (st.shells selfShell) = some k → k ≠ "" → st.cacheMap k = some c →
        (markExpiredV1 opts selfShell args st).cacheMap k
            = some ⟨none, none, c.contexts⟩
          ∧ (∀ k2, k2 ≠ k →
              (markExpiredV1 opts selfShell args st).cacheMap k2 = st.cacheMap k2)
          ∧ (markExpiredV1 opts selfShell args st).shells = st.shells)
    ∧ (∀ k, getKeyV1 opts
          (if args.length > 0 then args else (st.shells selfShell).payload)
          (st.shells selfShell) = some k → k ≠ "" → st.cacheMap k = none →
        markExpiredV1 opts selfShell args st = st)
    ∧ (getKeyV1 opts
          (if args.length > 0 then args else (st.shells selfShell).payload)
          (st.shells selfShell) = none →
        markExpiredV1 opts selfShell args st = st) := by
  refine ⟨?_, ?_, ?_⟩
  · intro k c hk hkne hc
    have hun : markExpiredV1 opts selfShell args st
        = { st with cacheMap := expireAt st.cacheMap k } := by
      simp only [markExpiredV1, hk]
      rw [if_neg hkne]
    refine ⟨?_, ?_, ?_⟩
    · rw [hun]
      show expireAt st.cacheMap k k = some ⟨none, none, c.contexts⟩
      rw [expireAt_self, hc]
      rfl
    · intro k2 hk2
      rw [hun]
      exact expireAt_ne st.cacheMap k k2 hk2
    · rw [hun]
  · intro k hk hkne hc
    have hun : markExpiredV1 opts selfShell args st
        = { st with cacheMap := expireAt st.cacheMap k } := by
      simp only [markExpiredV1, hk]
      rw [if_neg hkne]
    rw [hun]
    have hmap : expireAt st.cacheMap k = st.cacheMap := by
      funext k2
      by_cases h2 : k2 = k
      · subst h2
        rw [expireAt_self, hc]
        rfl
      · exact expireAt_ne st.cacheMap k k2 h2
    rw [hmap]
  · intro hk
    simp [markExpiredV1, hk]

/-- C9 witness: with the populated entry at "k", markExpired with no
arguments expires it in place keeping its context, and with no key
specification configured the state is untouched. -/
theorem C9_witness :
    (markExpiredV1 (env1k 0) 0 [] stPopulated).cacheMap "k"
        = some ⟨none, none, [(0, 0)]⟩
    ∧ markExpiredV1 ⟨none, none⟩ 0 [] stPopulated = stPopulated := by
  refine ⟨?_, ?_⟩
  · exact ((C9_markExpired (env1k 0) 0 [] stPopulated).1 "k"
      ⟨some 1000, some 5, [(0, 0)]⟩ (by decide) (by decide) (by decide)).1
  · exact (C9_markExpired ⟨none, none⟩ 0 [] stPopulated).2.2 (by decide)

/-- C10: a context survives the registration filter exactly when both its
shell and its options object differ from the registering subscriber's (and
the extra predicate holds); consequently, after the task wrapper registers
(in either variant, with caching active), the entry's contexts are exactly
the filtered old contexts with the registering pair appended, a sibling
sharing only the options object is evicted, the registering pair occurs
exactly once, and no other pair occurs more often than before. -/
theorem C10_registration (env1 : OptsId → SWROptV1) (env2 : OptsId → SWROptV2)
    (base : Int) :
    (∀ (selfShell : ShellId) (selfOpts : OptsId) (pred : ShellId × OptsId → Bool)
        (ctxs : List (ShellId × OptsId)) (x : ShellId × OptsId),
      x ∈ filterContexts selfShell selfOpts pred ctxs
        ↔ x ∈ ctxs ∧ x.1 ≠ selfShell ∧ x.2 ≠ selfOpts ∧ pred x = true)
    ∧ (∀ selfShell selfOpts payload now fresh st k,
        getKeyV1 (env1 selfOpts) payload (st.shells selfShell) = some k → k ≠ "" →
        0 < resolveCacheTimeV1 (env1 selfOpts) payload →
        ((taskV1 env1 selfShell selfOpts payload now fresh st).1.cacheMap k).map
            (fun e => e.contexts)
          = some (filterContexts selfShell selfOpts (fun _ => true)
              ((st.cacheMap k).getD initCache).contexts ++ [(selfShell, selfOpts)]))
    ∧ (∀ selfShell selfOpts payload now fresh st k,
        getKeyV2 (env2 selfOpts) payload = some k → k ≠ "" →
        ((taskV2 env2 base selfShell selfOpts payload now fresh st).1.cacheMap k).map
            (fun e => e.contexts)
          = some (filterContexts selfShell selfOpts (fun _ => true)
              ((st.cacheMap k).getD initCache).contexts ++ [(selfShell, selfOpts)]))
    ∧ (∀ (selfShell : ShellId) (selfOpts : OptsId) (ctxs : List (ShellId × OptsId))
        (s2 : ShellId), s2 ≠ selfShell →
        (s2, selfOpts) ∉ filterContexts selfShell selfOpts (fun _ => true) ctxs
            ++ [(selfShell, selfOpts)])
    ∧ (∀ (selfShell : ShellId) (selfOpts : OptsId) (ctxs : List (ShellId × OptsId)),
        (filterContexts selfShell selfOpts (fun _ => true) ctxs
            ++ [(selfShell, selfOpts)]).count (selfShell, selfOpts) = 1)
    ∧ (∀ (selfShell : ShellId) (selfOpts : OptsId) (ctxs : List (ShellId × OptsId))
        (x : ShellId × OptsId), x ≠ (selfShell, selfOpts) →
        (filterContexts selfShell selfOpts (fun _ => true) ctxs
            ++ [(selfShell, selfOpts)]).count x ≤ ctxs.count x) := by
  refine ⟨?_, ?_, ?_, ?_, ?_, ?_⟩
  · intro selfShell selfOpts pred ctxs x
    exact mem_filterContexts selfShell selfOpts pred ctxs x
  · intro selfShell selfOpts payload now fresh st k hk hkne hpos
    exact taskV1_contexts env1 selfShell selfOpts payload now fresh st k hk hkne hpos
  · intro selfShell selfOpts payload now fresh st k hk hkne
    exact taskV2_contexts env2 base selfShell selfOpts payload now fresh st k hk hkne
  · intro selfShell selfOpts ctxs s2 hs2
    exact reg_evicts_sameOpts selfShell selfOpts ctxs s2 hs2
  · intro selfShell selfOpts ctxs
    exact count_reg_self selfShell selfOpts ctxs
  · intro selfShell selfOpts ctxs x hx
    exact count_reg_other selfShell selfOpts ctxs x hx

/-- C10 witness: registering (shell 0, options 0) on the entry of stAliased
evicts the sibling (shell 1, options 0) that shares the options object,
leaving exactly the registering pair; eviction and the single occurrence are
also checked on the raw lists. -/
theorem C10_witness :
    ((taskV1 env1k 0 0 [] 50 8 stAliased).1.cacheMap "k").map (fun e => e.contexts)
        = some [(0, 0)]
    ∧ (1, 0) ∉ filterContexts 0 0 (fun _ => true) [(1, 0)] ++ [(0, 0)]
    ∧ (filterContexts 0 0 (fun _ => true) [(1, 0)] ++ [(0, 0)]).count (0, 0) = 1 := by
  have h := C10_registration env1k env2k 0
  refine ⟨?_, ?_, ?_⟩
  · have h2 := h.2.1 0 0 [] 50 8 stAliased "k" (by decide) (by decide) (by decide)
    rw [h2]
    decide
  · exact h.2.2.2.1 0 0 [(1, 0)] 1 (by decide)
  · exact h.2.2.2.2.1 0 0 [(1, 0)]


end SWRSpec
